import Mathlib

/-!
# Peril pub/sub layer: embedding and verification

A shallow embedding of `internal/pubsub/pubsub.go` and of the move handler of
`cmd/client/handlers.go`.

Modelling conventions.

* Go `int` and `AckType` are `Int`; no arithmetic is performed on them.
* A Go `error` is `Option String` (`none` is `nil`); a pair `(value, error)` is
  `Except String value`.  `fmt.Errorf("text: %v", err)` is string concatenation.
* The AMQP client library is outside the repository.  Its answers are fields of
  `Connection` / `Channel` (one function per library method), and every library
  call a function makes is recorded, in program order, in a list of `Call`s.
* `json.Marshal`, `json.Unmarshal` and the gob encoder / decoder are outside the
  repository as well and are taken as function arguments.
* A handler is a Go closure that may mutate captured state; it is modelled by
  explicit state passing, `σ → T → AckType × σ`.
* The delivery stream read by `for message := range deliveryChan` is the finite
  list of deliveries received before the stream is closed.
-/

namespace Pubsub

/-! ## Library data -/

/-- Byte sequences (`[]byte`). -/
abbrev Body := List Nat

/-- The `amqp.Table` literals that occur in the sources: string keys and string values. -/
abbrev Table := List (String × String)

/-- The fields of `amqp.Publishing` set by the publishers. -/
structure Publishing where
  ContentType : String
  Body : Body
deriving DecidableEq, Repr

/-- The fields of `amqp.Delivery` the spec names. -/
structure Delivery where
  DeliveryTag : Nat
  Redelivered : Bool
  Body : Body
deriving DecidableEq, Repr

/-- The value `amqp.Queue`. -/
structure Queue where
  Name : String
  Messages : Int
  Consumers : Int
deriving DecidableEq, Repr

/-- One call into the AMQP client library, with the arguments it was given.
`ch` is the identity of the channel the method was invoked on. -/
inductive Call where
  | connChannel
  | queueDeclare (ch : Nat) (name : String) (durable autoDelete exclusive noWait : Bool)
      (args : Table)
  | queueBind (ch : Nat) (name key exchange : String) (noWait : Bool) (args : Option Table)
  | qos (ch : Nat) (prefetchCount prefetchSize : Int) (isGlobal : Bool)
  | consume (ch : Nat) (queue consumer : String) (autoAck exclusive noLocal noWait : Bool)
      (args : Option Table)
  | publishWithContext (ch : Nat) (exchange key : String) (mandatory immediate : Bool)
      (msg : Publishing)
  | ack (message : Delivery) (multiple : Bool)
  | nack (message : Delivery) (multiple requeue : Bool)
  | channelClose (ch : Nat)
deriving DecidableEq, Repr

/-- An `*amqp.Channel`: its identity and the library's answer to each method. -/
structure Channel where
  id : Nat
  QueueDeclare : String → Bool → Bool → Bool → Bool → Table → Except String Queue
  QueueBind : String → String → String → Bool → Option Table → Option String
  Qos : Int → Int → Bool → Option String
  Consume : String → String → Bool → Bool → Bool → Bool → Option Table →
    Except String (List Delivery)
  PublishWithContext : String → String → Bool → Bool → Publishing → Option String

/-- An `*amqp.Connection`: the library's answer to `conn.Channel()`. -/
structure Connection where
  Channel : Except String Channel

/-! ## Constants of `pubsub.go` -/

def SimpleQueueTypeTransient : Int := 0

def SimpleQueueTypeDurable : Int := 1

/-- The source's `type AckType int`. -/
abbrev AckType := Int

def Ack : AckType := 0

def NackRequeue : AckType := 1

def NackDiscard : AckType := 2

/-! ## Publishers -/

/-- `PublishJSON`: the returned error and the library calls made. -/
def PublishJSON {T : Type} (jsonMarshal : T → Except String Body) (ch : Channel)
    (exchange key : String) (val : T) : Option String × List Call :=
  match jsonMarshal val with
  | .error err => (some ("could not marshal val to JSON: " ++ err), [])
  | .ok dat =>
    let msg : Publishing := { ContentType := "application/json", Body := dat }
    match ch.PublishWithContext exchange key false false msg with
    | some err =>
      (some ("error while publishing with context: " ++ err),
        [Call.publishWithContext ch.id exchange key false false msg])
    | none => (none, [Call.publishWithContext ch.id exchange key false false msg])

/-- `PublishGob`: the returned error and the library calls made.  `gobEncode val`
is the content of the buffer after `enc.Encode(val)`, or the encoder's error. -/
def PublishGob {T : Type} (gobEncode : T → Except String Body) (ch : Channel)
    (exchange key : String) (val : T) : Option String × List Call :=
  match gobEncode val with
  | .error err => (some ("could not marshal val to gob: " ++ err), [])
  | .ok buf =>
    let msg : Publishing := { ContentType := "application/gob", Body := buf }
    match ch.PublishWithContext exchange key false false msg with
    | some err =>
      (some ("error while publishing with context: " ++ err),
        [Call.publishWithContext ch.id exchange key false false msg])
    | none => (none, [Call.publishWithContext ch.id exchange key false false msg])

/-! ## Topology -/

/-- `DeclareAndBind`: the returned `(channel, queue)` or error, and the library
calls made. -/
def DeclareAndBind (conn : Connection) (exchange queueName key : String)
    (simpleQueueType : Int) : Except String (Channel × Queue) × List Call :=
  match conn.Channel with
  | .error err => (.error ("error creating RabbitMQ channel: " ++ err), [Call.connChannel])
  | .ok rabbitChannel =>
    let isDurable : Bool := simpleQueueType == SimpleQueueTypeDurable
    let autoDelete : Bool := simpleQueueType == SimpleQueueTypeTransient
    let exclusive : Bool := simpleQueueType == SimpleQueueTypeTransient
    let args : Table := [("x-dead-letter-exchange", "peril_dlx")]
    let declare :=
      Call.queueDeclare rabbitChannel.id queueName isDurable autoDelete exclusive false args
    match rabbitChannel.QueueDeclare queueName isDurable autoDelete exclusive false args with
    | .error err =>
      (.error ("error creating RabbitMQ queue: " ++ err), [Call.connChannel, declare])
    | .ok queue =>
      let bind := Call.queueBind rabbitChannel.id queueName key exchange false none
      match rabbitChannel.QueueBind queueName key exchange false none with
      | some err =>
        (.error ("error binding channel to queue: " ++ err), [Call.connChannel, declare, bind])
      | none => (.ok (rabbitChannel, queue), [Call.connChannel, declare, bind])

/-! ## Subscription -/

/-- What the consumption goroutine does, in program order. -/
inductive Event (T : Type) where
  | unmarshal (body : Body)
  | print (text : String)
  | logPrintln (text : String)
  | handler (target : T)
  | call (c : Call)
deriving DecidableEq, Repr

/-- The body of `for message := range deliveryChan` for one delivery: the
handler state afterwards and the events of this iteration. -/
def consumeStep {T σ : Type} (handler : σ → T → AckType × σ)
    (unmarshaller : Body → Except String T) (s : σ) (message : Delivery) :
    σ × List (Event T) :=
  match unmarshaller message.Body with
  | .error err =>
    (s, [Event.unmarshal message.Body,
         Event.print ("error during message unmarshal: " ++ err ++ "\n")])
  | .ok target =>
    let r := handler s target
    let ackResult := r.1
    let pre : List (Event T) :=
      [Event.unmarshal message.Body, Event.logPrintln "Running handler", Event.handler target]
    if ackResult = Ack then
      (r.2, pre ++ [Event.call (Call.ack message false), Event.logPrintln "Ack"])
    else if ackResult = NackRequeue then
      (r.2, pre ++ [Event.call (Call.nack message false true), Event.logPrintln "Nack Requeue"])
    else if ackResult = NackDiscard then
      (r.2, pre ++ [Event.call (Call.nack message false false), Event.logPrintln "Nack Discard"])
    else
      (r.2, pre ++ [Event.print "invalid ack result from handler: <nil>\n"])

/-- The goroutine started by `subscribe`: the loop over the delivery stream,
then the deferred `channel.Close()`. -/
def consumeLoop {T σ : Type} (channel : Channel) (handler : σ → T → AckType × σ)
    (unmarshaller : Body → Except String T) : σ → List Delivery → σ × List (Event T)
  | s, [] => (s, [Event.call (Call.channelClose channel.id)])
  | s, message :: rest =>
    let step := consumeStep handler unmarshaller s message
    let tail := consumeLoop channel handler unmarshaller step.1 rest
    (tail.1, step.2 ++ tail.2)

/-- Result of `subscribe`: the returned error, the library calls made before it
returns, and the goroutine it started (`none` when it started none), given as
the final handler state and the goroutine's events. -/
structure Subscribed (T σ : Type) where
  err : Option String
  calls : List Call
  goroutine : Option (σ × List (Event T))

/-- The source's `subscribe`. `s` is the state captured by the handler closure. -/
def subscribe {T σ : Type} (conn : Connection) (exchange queueName key : String)
    (simpleQueueType : Int) (handler : σ → T → AckType × σ)
    (unmarshaller : Body → Except String T) (s : σ) : Subscribed T σ :=
  match DeclareAndBind conn exchange queueName key simpleQueueType with
  | (.error err, calls) =>
    { err := some ("error subscribing: " ++ err), calls := calls, goroutine := none }
  | (.ok (channel, _), calls) =>
    let qos := Call.qos channel.id 10 0 true
    match channel.Qos 10 0 true with
    | some err =>
      { err := some ("error on QOS: " ++ err), calls := calls ++ [qos], goroutine := none }
    | none =>
      let consume := Call.consume channel.id queueName "" false false false false none
      match channel.Consume queueName "" false false false false none with
      | .error err =>
        { err := some ("error on consume: " ++ err), calls := calls ++ [qos, consume],
          goroutine := none }
      | .ok deliveryChan =>
        { err := none, calls := calls ++ [qos, consume],
          goroutine := some (consumeLoop channel handler unmarshaller s deliveryChan) }

/-- `SubscribeJSON`: `subscribe` with the JSON unmarshaller, its error wrapped. -/
def SubscribeJSON {T σ : Type} (jsonUnmarshal : Body → Except String T) (conn : Connection)
    (exchange queueName key : String) (simpleQueueType : Int) (handler : σ → T → AckType × σ)
    (s : σ) : Subscribed T σ :=
  let r := subscribe conn exchange queueName key simpleQueueType handler jsonUnmarshal s
  match r.err with
  | some err => { r with err := some ("error on subscribe: " ++ err) }
  | none => r

/-- `SubscribeGob`: `subscribe` with the gob unmarshaller, its error wrapped. -/
def SubscribeGob {T σ : Type} (gobDecode : Body → Except String T) (conn : Connection)
    (exchange queueName key : String) (simpleQueueType : Int) (handler : σ → T → AckType × σ)
    (s : σ) : Subscribed T σ :=
  let r := subscribe conn exchange queueName key simpleQueueType handler gobDecode s
  match r.err with
  | some err => { r with err := some ("error on subscribe: " ++ err) }
  | none => r

/-! ## Observations on traces -/

/-- The library calls among a goroutine's events, in order. -/
def brokerCalls {T : Type} : List (Event T) → List Call
  | [] => []
  | Event.call c :: es => c :: brokerCalls es
  | _ :: es => brokerCalls es

/-- The values the handler was invoked with, in order. -/
def handlerArgs {T : Type} : List (Event T) → List T
  | [] => []
  | Event.handler v :: es => v :: handlerArgs es
  | _ :: es => handlerArgs es

/-- The payloads handed to the unmarshaller, in order. -/
def unmarshalled {T : Type} : List (Event T) → List Body
  | [] => []
  | Event.unmarshal b :: es => b :: unmarshalled es
  | _ :: es => unmarshalled es

/-- The delivery an acknowledgment call (`Ack` or `Nack`) is made on. -/
def Call.acked : Call → Option Delivery
  | Call.ack message _ => some message
  | Call.nack message _ _ => some message
  | _ => none

/-- The acknowledgment calls (`Ack` or `Nack`) among library calls. -/
def ackCalls (cs : List Call) : List Call :=
  cs.filter (fun c => c.acked.isSome)

/-- The `(durable, autoDelete, exclusive)` triple of every queue declaration
among library calls, in order. -/
def declaredFlags : List Call → List (Bool × Bool × Bool)
  | [] => []
  | Call.queueDeclare _ _ durable autoDelete exclusive _ _ :: cs =>
    (durable, autoDelete, exclusive) :: declaredFlags cs
  | _ :: cs => declaredFlags cs

/-- The argument table of every queue declaration among library calls, in order. -/
def declaredArgs : List Call → List Table
  | [] => []
  | Call.queueDeclare _ _ _ _ _ _ args :: cs => args :: declaredArgs cs
  | _ :: cs => declaredArgs cs

/-- Whether a library call registers a consumer. -/
def Call.isConsume : Call → Bool
  | Call.consume _ _ _ _ _ _ _ _ => true
  | _ => false

/-- The handler state once the loop is done with delivery `d`, reached in state
`s`: the handler has run once, on the decoded value, when the payload decodes,
and has not run otherwise. -/
def stateAfter {T σ : Type} (handler : σ → T → AckType × σ)
    (unmarshaller : Body → Except String T) (s : σ) (d : Delivery) : σ :=
  match unmarshaller d.Body with
  | .error _ => s
  | .ok v => (handler s v).2

/-- The events `seg` are one iteration of the loop on delivery `d`, reached in
handler state `s`.  The iteration starts by handing `d`'s payload to the
unmarshaller and decodes nothing else; it makes at most one library call, and
only to acknowledge `d`.  When the payload does not decode the handler is not
invoked.  When it decodes to `v` the handler is invoked exactly once, with `v`,
no library call precedes that invocation, and when the handler's result on
`(s, v)` is `Ack`, `NackRequeue` or `NackDiscard` the acknowledgment call on `d`
follows the invocation inside this same iteration. -/
def IterationOf {T σ : Type} (handler : σ → T → AckType × σ)
    (unmarshaller : Body → Except String T) (s : σ) (d : Delivery)
    (seg : List (Event T)) : Prop :=
  seg.head? = some (Event.unmarshal d.Body) ∧
  unmarshalled seg = [d.Body] ∧
  (brokerCalls seg).length ≤ 1 ∧
  (∀ c ∈ brokerCalls seg, c.acked = some d) ∧
  match unmarshaller d.Body with
  | .error _ => handlerArgs seg = []
  | .ok v =>
    ∃ before after : List (Event T),
      seg = before ++ Event.handler v :: after ∧
      handlerArgs before = [] ∧ handlerArgs after = [] ∧
      brokerCalls before = [] ∧
      ((handler s v).1 = Ack ∨ (handler s v).1 = NackRequeue ∨ (handler s v).1 = NackDiscard →
        ∃ c, brokerCalls after = [c] ∧ c.acked = some d)

/-- The segments `segs` are the loop's iterations on the deliveries `ds`, one
segment per delivery and in the same order, started in handler state `s`: each
segment is an iteration on its delivery in the state the earlier deliveries
left. -/
def Iterations {T σ : Type} (handler : σ → T → AckType × σ)
    (unmarshaller : Body → Except String T) :
    σ → List Delivery → List (List (Event T)) → Prop
  | _, [], [] => True
  | s, d :: ds, seg :: segs =>
    IterationOf handler unmarshaller s d seg ∧
    Iterations handler unmarshaller (stateAfter handler unmarshaller s d) ds segs
  | _, _, _ => False

end Pubsub

/-! ## The client's move handler (`cmd/client/handlers.go`) -/

namespace Client

open Pubsub

/-- The outcomes `handlerMove` switches on.  The three named constants are
distinct Go constants (they label cases of one `switch`); `other` stands for
every remaining value, which the `switch` sends to `default`. -/
inductive MoveOutcome where
  | MoveOutComeSafe
  | MoveOutcomeMakeWar
  | MoveOutcomeSamePlayer
  | other (n : Int)
deriving DecidableEq, Repr

/-- The part of package `gamelogic` that `handlerMove` uses.  The package is not
among the sources, so its types and methods are parameters: `Username` is the
field `Player.Username`, `MovePlayer` the field `ArmyMove.Player`; `HandleMove`
may update the game state, the two getters only read it. -/
structure Gamelogic where
  GameState : Type
  Player : Type
  ArmyMove : Type
  Username : Player → String
  MovePlayer : ArmyMove → Player
  HandleMove : GameState → ArmyMove → MoveOutcome × GameState
  GetUsername : GameState → String
  GetPlayerSnap : GameState → Player

/-- The constants of package `routing` that `handlerMove` uses (the package is
not among the sources). -/
structure Routing where
  ExchangePerilTopic : String
  WarRecognitionsPrefix : String

/-- The value `gamelogic.RecognitionOfWar` as `handlerMove` builds it. -/
structure RecognitionOfWar (P : Type) where
  Attacker : P
  Defender : P

/-- What one invocation of the closure returned by `handlerMove` does. -/
structure Handled (GS : Type) where
  ackResult : AckType
  gs : GS
  calls : List Call
  printed : List String

/-- The closure returned by `handlerMove(gs, publishCh)`, applied to a move `m`. -/
def handlerMove (G : Gamelogic) (R : Routing)
    (jsonMarshal : RecognitionOfWar G.Player → Except String Body) (publishCh : Channel)
    (gs : G.GameState) (m : G.ArmyMove) : Handled G.GameState :=
  let r := G.HandleMove gs m
  let move := r.1
  let gs1 := r.2
  match move with
  | MoveOutcome.MoveOutComeSafe =>
    { ackResult := Ack, gs := gs1, calls := [], printed := ["> "] }
  | MoveOutcome.MoveOutcomeMakeWar =>
    let p := PublishJSON jsonMarshal publishCh R.ExchangePerilTopic
      (R.WarRecognitionsPrefix ++ "." ++ G.GetUsername gs1)
      { Attacker := G.MovePlayer m, Defender := G.GetPlayerSnap gs1 }
    match p.1 with
    | some err =>
      { ackResult := NackRequeue, gs := gs1, calls := p.2,
        printed := ["Error publishing war message: " ++ err ++ "\n", "> "] }
    | none => { ackResult := Ack, gs := gs1, calls := p.2, printed := ["> "] }
  | MoveOutcome.MoveOutcomeSamePlayer =>
    { ackResult := NackDiscard, gs := gs1, calls := [], printed := ["> "] }
  | MoveOutcome.other _ =>
    { ackResult := NackDiscard, gs := gs1, calls := [], printed := ["> "] }

/-- The routing keys of the publish calls among library calls, in order. -/
def publishedKeys : List Call → List String
  | [] => []
  | Call.publishWithContext _ _ key _ _ _ :: cs => key :: publishedKeys cs
  | _ :: cs => publishedKeys cs

end Client

/-! ## Concrete inputs used for evaluation -/

namespace Sample

open Pubsub Client

/-- A channel on which every library call succeeds and `Consume` yields `ds`. -/
def okChannel (ds : List Delivery) : Channel where
  id := 7
  QueueDeclare := fun name _ _ _ _ _ => .ok { Name := name, Messages := 0, Consumers := 0 }
  QueueBind := fun _ _ _ _ _ => none
  Qos := fun _ _ _ => none
  Consume := fun _ _ _ _ _ _ _ => .ok ds
  PublishWithContext := fun _ _ _ _ _ => none

/-- A channel whose `Qos` is refused; every other call succeeds. -/
def qosFailChannel (ds : List Delivery) : Channel :=
  { okChannel ds with Qos := fun _ _ _ => some "channel closed" }

/-- A channel whose `PublishWithContext` is refused. -/
def publishFailChannel : Channel :=
  { okChannel [] with PublishWithContext := fun _ _ _ _ _ => some "channel closed" }

/-- A connection that opens `okChannel ds`. -/
def okConn (ds : List Delivery) : Connection where
  Channel := .ok (okChannel ds)

/-- A decoder for one-byte payloads: the byte is the value; anything else is malformed. -/
def byteDecode : Body → Except String Nat
  | [b] => .ok b
  | _ => .error "malformed"

/-- An encoder matching `byteDecode` that rejects values above 255. -/
def byteEncode (n : Nat) : Except String Body :=
  if n ≤ 255 then .ok [n] else .error "unsupported value"

/-- A handler that counts its invocations and answers with the decoded value as
its `AckType`. -/
def echoHandler (count : Nat) (v : Nat) : AckType × Nat := ((v : Int), count + 1)

/-- A delivery with tag `tag` and payload `body`. -/
def delivery (tag : Nat) (body : Body) : Delivery :=
  { DeliveryTag := tag, Redelivered := false, Body := body }

/-- A two-player instance of the `gamelogic` interface: the game state is the
local player's name, a move is the moving player's name, and a move by another
player starts a war. -/
def duel : Gamelogic where
  GameState := String
  Player := String
  ArmyMove := String
  Username := fun p => p
  MovePlayer := fun m => m
  HandleMove := fun gs m =>
    (if gs = m then MoveOutcome.MoveOutcomeSamePlayer else MoveOutcome.MoveOutcomeMakeWar, gs)
  GetUsername := fun gs => gs
  GetPlayerSnap := fun gs => gs

/-- The routing constants as the spec spells them for the war topic. -/
def routes : Routing where
  ExchangePerilTopic := "peril_topic"
  WarRecognitionsPrefix := "war"

/-- An encoder for `RecognitionOfWar` over `duel`: attacker name length, then defender name length. -/
def warMarshal (r : RecognitionOfWar String) : Except String Body :=
  .ok [r.Attacker.length, r.Defender.length]

end Sample

/-! ## Properties of the consumption loop -/

namespace Pubsub

open Sample

@[simp] theorem brokerCalls_append {T : Type} (xs ys : List (Event T)) :
    brokerCalls (xs ++ ys) = brokerCalls xs ++ brokerCalls ys := by
  induction xs with
  | nil => rfl
  | cons e es ih => cases e <;> simp [brokerCalls, ih]

@[simp] theorem handlerArgs_append {T : Type} (xs ys : List (Event T)) :
    handlerArgs (xs ++ ys) = handlerArgs xs ++ handlerArgs ys := by
  induction xs with
  | nil => rfl
  | cons e es ih => cases e <;> simp [handlerArgs, ih]

@[simp] theorem unmarshalled_append {T : Type} (xs ys : List (Event T)) :
    unmarshalled (xs ++ ys) = unmarshalled xs ++ unmarshalled ys := by
  induction xs with
  | nil => rfl
  | cons e es ih => cases e <;> simp [unmarshalled, ih]

/-- The loop on a non-empty stream: one iteration, then the loop on the rest
from the state that iteration left. -/
theorem consumeLoop_cons {T σ : Type} (channel : Channel) (handler : σ → T → AckType × σ)
    (unmarshaller : Body → Except String T) (s : σ) (message : Delivery)
    (rest : List Delivery) :
    consumeLoop channel handler unmarshaller s (message :: rest) =
      ((consumeLoop channel handler unmarshaller
          (consumeStep handler unmarshaller s message).1 rest).1,
       (consumeStep handler unmarshaller s message).2 ++
        (consumeLoop channel handler unmarshaller
          (consumeStep handler unmarshaller s message).1 rest).2) := rfl

/-- C1. Whenever the consumption loop reaches a delivery `message` whose payload
decodes (in any handler state `s`, with any deliveries `rest` still to come),
the handler's result selects the library call made on it: `Ack` gives
`message.Ack(false)`, `NackRequeue` gives `message.Nack(false, true)`,
`NackDiscard` gives `message.Nack(false, false)`.  The call is made on that same
delivery, it is the only library call of the iteration, and the loop goes on
with `rest` from the state the handler left. -/
theorem consumeLoop_disposition {T σ : Type} (channel : Channel)
    (handler : σ → T → AckType × σ) (unmarshaller : Body → Except String T) (s : σ)
    (message : Delivery) (rest : List Delivery) (target : T)
    (hdec : unmarshaller message.Body = .ok target) :
    ((handler s target).1 = Ack →
        brokerCalls (consumeLoop channel handler unmarshaller s (message :: rest)).2
          = Call.ack message false ::
            brokerCalls (consumeLoop channel handler unmarshaller (handler s target).2 rest).2) ∧
    ((handler s target).1 = NackRequeue →
        brokerCalls (consumeLoop channel handler unmarshaller s (message :: rest)).2
          = Call.nack message false true ::
            brokerCalls (consumeLoop channel handler unmarshaller (handler s target).2 rest).2) ∧
    ((handler s target).1 = NackDiscard →
        brokerCalls (consumeLoop channel handler unmarshaller s (message :: rest)).2
          = Call.nack message false false ::
            brokerCalls (consumeLoop channel handler unmarshaller (handler s target).2 rest).2) := by
  refine ⟨fun h => ?_, fun h => ?_, fun h => ?_⟩
  · simp [consumeLoop_cons, consumeStep, hdec, h, brokerCalls]
  · simp [consumeLoop_cons, consumeStep, hdec, h, brokerCalls, Ack, NackRequeue]
  · simp [consumeLoop_cons, consumeStep, hdec, h, brokerCalls, Ack, NackRequeue, NackDiscard]

/-- C1, at a concrete input: the handler answers `NackRequeue` for the payload
`[1]` and `Ack` for the payload `[0]` that follows. -/
theorem consumeLoop_disposition_witness :
    byteDecode (delivery 4 [1]).Body = .ok 1 ∧
    (echoHandler 0 1).1 = NackRequeue ∧
    brokerCalls (consumeLoop (okChannel []) echoHandler byteDecode 0
        [delivery 4 [1], delivery 5 [0]]).2
      = [Call.nack (delivery 4 [1]) false true, Call.ack (delivery 5 [0]) false,
         Call.channelClose 7] :=
  ⟨rfl, rfl,
   ((consumeLoop_disposition (okChannel []) echoHandler byteDecode 0 (delivery 4 [1])
      [delivery 5 [0]] 1 rfl).2.1 rfl).trans (by decide)⟩

/-- C2, the code at a failing input: for the payload `[1, 2]`, which the decoder
rejects, the iteration hands the payload to the decoder, prints the error and
makes no library call at all: neither `Nack(false, false)` nor any other
acknowledgment reaches the delivery, in the iteration or in the rest of the loop. -/
theorem consumeStep_decode_failure_unacked :
    byteDecode (delivery 4 [1, 2]).Body = .error "malformed" ∧
    consumeStep echoHandler byteDecode 0 (delivery 4 [1, 2])
      = (0, [Event.unmarshal [1, 2],
             Event.print "error during message unmarshal: malformed\n"]) ∧
    brokerCalls (consumeStep echoHandler byteDecode 0 (delivery 4 [1, 2])).2 = [] ∧
    brokerCalls (consumeLoop (okChannel []) echoHandler byteDecode 0 [delivery 4 [1, 2]]).2
      = [Call.channelClose 7] := by
  refine ⟨rfl, ?_, ?_, ?_⟩ <;> decide

/-- C3 fails as stated: the payload `[3]` decodes, the handler answers the
`AckType` value 3, and the loop makes no acknowledgment call, on this delivery
or at all. -/
theorem consumeLoop_unknown_result_no_ack :
    byteDecode (delivery 4 [3]).Body = .ok 3 ∧
    (echoHandler 0 3).1 = 3 ∧
    brokerCalls (consumeStep echoHandler byteDecode 0 (delivery 4 [3])).2 = [] ∧
    ackCalls (brokerCalls
      (consumeLoop (okChannel []) echoHandler byteDecode 0 [delivery 4 [3]]).2) = [] := by
  refine ⟨rfl, rfl, ?_, ?_⟩ <;> decide

/-- C3, amended. Whenever the consumption loop reaches a delivery `message` whose
payload decodes, the acknowledgment calls of the loop are those of this iteration
followed by those of the later iterations; this iteration makes at most one,
whatever `AckType` value the handler returns, and when that value is `Ack`,
`NackRequeue` or `NackDiscard` it makes exactly one, on `message`. -/
theorem consumeLoop_ack_once {T σ : Type} (channel : Channel)
    (handler : σ → T → AckType × σ) (unmarshaller : Body → Except String T) (s : σ)
    (message : Delivery) (rest : List Delivery) (target : T)
    (hdec : unmarshaller message.Body = .ok target) :
    ackCalls (brokerCalls (consumeLoop channel handler unmarshaller s (message :: rest)).2)
      = ackCalls (brokerCalls (consumeStep handler unmarshaller s message).2) ++
        ackCalls (brokerCalls
          (consumeLoop channel handler unmarshaller (handler s target).2 rest).2) ∧
    (ackCalls (brokerCalls (consumeStep handler unmarshaller s message).2)).length ≤ 1 ∧
    ((handler s target).1 = Ack ∨ (handler s target).1 = NackRequeue ∨
        (handler s target).1 = NackDiscard →
      (ackCalls (brokerCalls (consumeStep handler unmarshaller s message).2)).length = 1 ∧
      ∀ c ∈ ackCalls (brokerCalls (consumeStep handler unmarshaller s message).2),
        c.acked = some message) := by
  refine ⟨?_, ?_⟩
  · have hs : (consumeStep handler unmarshaller s message).1 = (handler s target).2 := by
      simp only [consumeStep, hdec]
      split_ifs <;> rfl
    rw [consumeLoop_cons, brokerCalls_append, hs]
    simp [ackCalls]
  · simp only [consumeStep, hdec]
    split_ifs <;> simp_all [brokerCalls, ackCalls, Call.acked]

/-- C3 amended, at a concrete input: the handler answers `NackDiscard` for the
payload `[2]`, and one acknowledgment call is made on that delivery. -/
theorem consumeLoop_ack_once_witness :
    byteDecode (delivery 4 [2]).Body = .ok 2 ∧
    (echoHandler 0 2).1 = NackDiscard ∧
    ackCalls (brokerCalls
      (consumeLoop (okChannel []) echoHandler byteDecode 0 [delivery 4 [2]]).2)
      = [Call.nack (delivery 4 [2]) false false] :=
  ⟨rfl, rfl,
   (consumeLoop_ack_once (okChannel []) echoHandler byteDecode 0 (delivery 4 [2]) [] 2
      rfl).1.trans (by decide)⟩

end Pubsub

/-! ## Properties of the topology provisioner -/

namespace Pubsub

/-- C4. The `(durable, autoDelete, exclusive)` triple `DeclareAndBind` passes to
`QueueDeclare` is `(false, true, true)` for `SimpleQueueTypeTransient` and
`(true, false, false)` for `SimpleQueueTypeDurable`; and whenever the channel
can be opened the queue declaration is made, exactly once. -/
theorem DeclareAndBind_policy_flags (conn : Connection) (exchange queueName key : String) :
    (∀ f ∈ declaredFlags
        (DeclareAndBind conn exchange queueName key SimpleQueueTypeTransient).2,
      f = (false, true, true)) ∧
    (∀ f ∈ declaredFlags
        (DeclareAndBind conn exchange queueName key SimpleQueueTypeDurable).2,
      f = (true, false, false)) ∧
    (∀ rabbitChannel, conn.Channel = .ok rabbitChannel →
      declaredFlags (DeclareAndBind conn exchange queueName key SimpleQueueTypeTransient).2
        = [(false, true, true)] ∧
      declaredFlags (DeclareAndBind conn exchange queueName key SimpleQueueTypeDurable).2
        = [(true, false, false)]) := by
  have hflags : ∀ (t : Int) (rabbitChannel : Channel), conn.Channel = .ok rabbitChannel →
      declaredFlags (DeclareAndBind conn exchange queueName key t).2
        = [(t == SimpleQueueTypeDurable, t == SimpleQueueTypeTransient,
            t == SimpleQueueTypeTransient)] := by
    intro t rabbitChannel hch
    simp only [DeclareAndBind, hch]
    split
    · simp [declaredFlags]
    · split <;> simp [declaredFlags]
  cases hch : conn.Channel with
  | error err =>
    refine ⟨?_, ?_, ?_⟩
    · simp [DeclareAndBind, hch, declaredFlags]
    · simp [DeclareAndBind, hch, declaredFlags]
    · intro rabbitChannel h; cases h
  | ok rabbitChannel =>
    have hT := hflags SimpleQueueTypeTransient rabbitChannel hch
    have hD := hflags SimpleQueueTypeDurable rabbitChannel hch
    have eT : declaredFlags
        (DeclareAndBind conn exchange queueName key SimpleQueueTypeTransient).2
          = [(false, true, true)] := by
      rw [hT]; simp [SimpleQueueTypeTransient, SimpleQueueTypeDurable]
    have eD : declaredFlags
        (DeclareAndBind conn exchange queueName key SimpleQueueTypeDurable).2
          = [(true, false, false)] := by
      rw [hD]; simp [SimpleQueueTypeTransient, SimpleQueueTypeDurable]
    refine ⟨?_, ?_, ?_⟩
    · intro f hf; rw [eT] at hf; simpa using hf
    · intro f hf; rw [eD] at hf; simpa using hf
    · intro _ _; exact ⟨eT, eD⟩

/-- C5. Whatever the exchange, queue name, binding key and `simpleQueueType`
(any integer), every queue declaration `DeclareAndBind` makes carries exactly
the argument table `{"x-dead-letter-exchange": "peril_dlx"}`; and whenever the
channel can be opened that declaration is made, exactly once. -/
theorem DeclareAndBind_dead_letter (conn : Connection) (exchange queueName key : String)
    (simpleQueueType : Int) :
    (∀ args ∈ declaredArgs (DeclareAndBind conn exchange queueName key simpleQueueType).2,
      args = [("x-dead-letter-exchange", "peril_dlx")]) ∧
    (∀ rabbitChannel, conn.Channel = .ok rabbitChannel →
      declaredArgs (DeclareAndBind conn exchange queueName key simpleQueueType).2
        = [[("x-dead-letter-exchange", "peril_dlx")]]) := by
  cases hch : conn.Channel with
  | error err =>
    refine ⟨?_, ?_⟩
    · simp [DeclareAndBind, hch, declaredArgs]
    · intro rabbitChannel h; cases h
  | ok rabbitChannel =>
    have e : declaredArgs (DeclareAndBind conn exchange queueName key simpleQueueType).2
        = [[("x-dead-letter-exchange", "peril_dlx")]] := by
      simp only [DeclareAndBind, hch]
      split
      · simp [declaredArgs]
      · split <;> simp [declaredArgs]
    refine ⟨?_, fun _ _ => e⟩
    intro args hargs; rw [e] at hargs; simpa using hargs

end Pubsub

/-! ## Properties of the publishers -/

namespace Pubsub

/-- C6. `PublishJSON` and `PublishGob` return an error exactly when encoding
fails or the transmit call fails.  When encoding fails no library call is made;
when it succeeds exactly one `PublishWithContext` call is made (also when that
call fails: there is no second attempt), carrying the encoded body, and the
function returns `nil` exactly when that call returns `nil`. -/
theorem Publish_error_iff {T : Type} (jsonMarshal gobEncode : T → Except String Body)
    (ch : Channel) (exchange key : String) (val : T) :
    ((∀ err, jsonMarshal val = .error err →
        (PublishJSON jsonMarshal ch exchange key val).1.isSome = true ∧
        (PublishJSON jsonMarshal ch exchange key val).2 = []) ∧
     (∀ dat, jsonMarshal val = .ok dat →
        (PublishJSON jsonMarshal ch exchange key val).2
          = [Call.publishWithContext ch.id exchange key false false
              { ContentType := "application/json", Body := dat }] ∧
        ((PublishJSON jsonMarshal ch exchange key val).1 = none ↔
          ch.PublishWithContext exchange key false false
            { ContentType := "application/json", Body := dat } = none))) ∧
    ((∀ err, gobEncode val = .error err →
        (PublishGob gobEncode ch exchange key val).1.isSome = true ∧
        (PublishGob gobEncode ch exchange key val).2 = []) ∧
     (∀ buf, gobEncode val = .ok buf →
        (PublishGob gobEncode ch exchange key val).2
          = [Call.publishWithContext ch.id exchange key false false
              { ContentType := "application/gob", Body := buf }] ∧
        ((PublishGob gobEncode ch exchange key val).1 = none ↔
          ch.PublishWithContext exchange key false false
            { ContentType := "application/gob", Body := buf } = none))) := by
  refine ⟨⟨?_, ?_⟩, ⟨?_, ?_⟩⟩
  · intro err h
    simp [PublishJSON, h]
  · intro dat h
    simp only [PublishJSON, h]
    cases hp : ch.PublishWithContext exchange key false false
      { ContentType := "application/json", Body := dat } <;> simp
  · intro err h
    simp [PublishGob, h]
  · intro buf h
    simp only [PublishGob, h]
    cases hp : ch.PublishWithContext exchange key false false
      { ContentType := "application/gob", Body := buf } <;> simp

/-! ## Properties of `subscribe` -/

/-- `DeclareAndBind` never registers a consumer. -/
theorem DeclareAndBind_no_consume (conn : Connection) (exchange queueName key : String)
    (simpleQueueType : Int) :
    ∀ c ∈ (DeclareAndBind conn exchange queueName key simpleQueueType).2,
      c.isConsume = false := by
  intro c hc
  simp only [DeclareAndBind] at hc
  split at hc
  · simp at hc; subst hc; rfl
  · split at hc
    · simp at hc; rcases hc with rfl | rfl <;> rfl
    · split at hc <;> simp at hc <;> rcases hc with rfl | rfl | rfl <;> rfl

/-- `SubscribeJSON` and `SubscribeGob` run `subscribe` with their unmarshaller:
same library calls, same goroutine; only the error text is wrapped. -/
theorem Subscribe_codecs_run_subscribe {T σ : Type} (unmarshaller : Body → Except String T)
    (conn : Connection) (exchange queueName key : String) (simpleQueueType : Int)
    (handler : σ → T → AckType × σ) (s : σ) :
    ((SubscribeJSON unmarshaller conn exchange queueName key simpleQueueType handler s).calls
        = (subscribe conn exchange queueName key simpleQueueType handler unmarshaller s).calls ∧
     (SubscribeJSON unmarshaller conn exchange queueName key simpleQueueType handler s).goroutine
        = (subscribe conn exchange queueName key simpleQueueType handler unmarshaller
            s).goroutine) ∧
    ((SubscribeGob unmarshaller conn exchange queueName key simpleQueueType handler s).calls
        = (subscribe conn exchange queueName key simpleQueueType handler unmarshaller s).calls ∧
     (SubscribeGob unmarshaller conn exchange queueName key simpleQueueType handler s).goroutine
        = (subscribe conn exchange queueName key simpleQueueType handler unmarshaller
            s).goroutine) := by
  refine ⟨⟨?_, ?_⟩, ⟨?_, ?_⟩⟩ <;>
    first
      | (simp only [SubscribeJSON]; split <;> rfl)
      | (simp only [SubscribeGob]; split <;> rfl)

/-- C8. `subscribe` sets the flow-control limit with `Qos(10, 0, true)` on the
channel `DeclareAndBind` returned, after the queue declaration and binding and
before `Consume` on that same channel.  When provisioning fails, or when `Qos`
fails, `subscribe` returns an error, makes no `Consume` call and starts no
goroutine, so no handler invocation exists. -/
theorem subscribe_flow_control {T σ : Type} (conn : Connection)
    (exchange queueName key : String) (simpleQueueType : Int)
    (handler : σ → T → AckType × σ) (unmarshaller : Body → Except String T) (s : σ) :
    (∀ err, (DeclareAndBind conn exchange queueName key simpleQueueType).1 = .error err →
      (subscribe conn exchange queueName key simpleQueueType handler unmarshaller s).err.isSome
        = true ∧
      (subscribe conn exchange queueName key simpleQueueType handler unmarshaller s).goroutine
        = none ∧
      ∀ c ∈ (subscribe conn exchange queueName key simpleQueueType handler unmarshaller s).calls,
        c.isConsume = false) ∧
    (∀ channel queue,
      (DeclareAndBind conn exchange queueName key simpleQueueType).1 = .ok (channel, queue) →
      (∀ err, channel.Qos 10 0 true = some err →
        (subscribe conn exchange queueName key simpleQueueType handler unmarshaller s).err.isSome
          = true ∧
        (subscribe conn exchange queueName key simpleQueueType handler unmarshaller s).goroutine
          = none ∧
        (subscribe conn exchange queueName key simpleQueueType handler unmarshaller s).calls
          = [Call.connChannel,
             Call.queueDeclare channel.id queueName (simpleQueueType == SimpleQueueTypeDurable)
               (simpleQueueType == SimpleQueueTypeTransient)
               (simpleQueueType == SimpleQueueTypeTransient) false
               [("x-dead-letter-exchange", "peril_dlx")],
             Call.queueBind channel.id queueName key exchange false none,
             Call.qos channel.id 10 0 true]) ∧
      (channel.Qos 10 0 true = none →
        (subscribe conn exchange queueName key simpleQueueType handler unmarshaller s).calls
          = [Call.connChannel,
             Call.queueDeclare channel.id queueName (simpleQueueType == SimpleQueueTypeDurable)
               (simpleQueueType == SimpleQueueTypeTransient)
               (simpleQueueType == SimpleQueueTypeTransient) false
               [("x-dead-letter-exchange", "peril_dlx")],
             Call.queueBind channel.id queueName key exchange false none,
             Call.qos channel.id 10 0 true,
             Call.consume channel.id queueName "" false false false false none] ∧
        ∀ deliveryChan,
          channel.Consume queueName "" false false false false none = .ok deliveryChan →
          (subscribe conn exchange queueName key simpleQueueType handler unmarshaller s).err
            = none ∧
          (subscribe conn exchange queueName key simpleQueueType handler unmarshaller s).goroutine
            = some (consumeLoop channel handler unmarshaller s deliveryChan))) := by
  have hcalls : ∀ channel queue,
      (DeclareAndBind conn exchange queueName key simpleQueueType).1 = .ok (channel, queue) →
      (DeclareAndBind conn exchange queueName key simpleQueueType).2
        = [Call.connChannel,
           Call.queueDeclare channel.id queueName (simpleQueueType == SimpleQueueTypeDurable)
             (simpleQueueType == SimpleQueueTypeTransient)
             (simpleQueueType == SimpleQueueTypeTransient) false
             [("x-dead-letter-exchange", "peril_dlx")],
           Call.queueBind channel.id queueName key exchange false none] := by
    intro channel queue h
    cases hch : conn.Channel with
    | error e => simp [DeclareAndBind, hch] at h
    | ok rc =>
      cases hq : rc.QueueDeclare queueName (simpleQueueType == SimpleQueueTypeDurable)
          (simpleQueueType == SimpleQueueTypeTransient)
          (simpleQueueType == SimpleQueueTypeTransient) false
          [("x-dead-letter-exchange", "peril_dlx")] with
      | error e => simp [DeclareAndBind, hch, hq] at h
      | ok q =>
        cases hb : rc.QueueBind queueName key exchange false none with
        | some e => simp [DeclareAndBind, hch, hq, hb] at h
        | none =>
          simp only [DeclareAndBind, hch, hq, hb, Except.ok.injEq, Prod.mk.injEq] at h
          obtain ⟨rfl, rfl⟩ := h
          simp [DeclareAndBind, hch, hq, hb]
  have hno := DeclareAndBind_no_consume conn exchange queueName key simpleQueueType
  refine ⟨?_, ?_⟩
  · intro err h
    rcases hp : DeclareAndBind conn exchange queueName key simpleQueueType with ⟨res, calls⟩
    rw [hp] at h hno
    simp only at h
    subst h
    simp only [subscribe, hp]
    exact ⟨by simp, by simp, hno⟩
  · intro channel queue h
    have hc := hcalls channel queue h
    rcases hp : DeclareAndBind conn exchange queueName key simpleQueueType with ⟨res, calls⟩
    rw [hp] at h hc
    simp only at h hc
    subst h
    subst hc
    refine ⟨?_, ?_⟩
    · intro err hq
      simp [subscribe, hp, hq]
    · intro hq
      refine ⟨?_, ?_⟩
      · simp only [subscribe, hp, hq]
        split <;> simp
      · intro deliveryChan hcons
        simp [subscribe, hp, hq, hcons]

end Pubsub

/-! ## Order of processing -/

namespace Pubsub

/-- The handler is invoked in an iteration exactly when the payload decodes,
and then with the decoded value. -/
theorem handlerArgs_consumeStep {T σ : Type} (handler : σ → T → AckType × σ)
    (unmarshaller : Body → Except String T) (s : σ) (message : Delivery) :
    handlerArgs (consumeStep handler unmarshaller s message).2
      = (unmarshaller message.Body).toOption.toList := by
  simp only [consumeStep]
  cases hdec : unmarshaller message.Body with
  | error err => simp [handlerArgs, Except.toOption]
  | ok target =>
    simp only []
    split_ifs <;> simp [handlerArgs, Except.toOption]

/-- Each iteration hands exactly the delivery's payload to the unmarshaller. -/
theorem unmarshalled_consumeStep {T σ : Type} (handler : σ → T → AckType × σ)
    (unmarshaller : Body → Except String T) (s : σ) (message : Delivery) :
    unmarshalled (consumeStep handler unmarshaller s message).2 = [message.Body] := by
  simp only [consumeStep]
  cases hdec : unmarshaller message.Body with
  | error err => simp [unmarshalled]
  | ok target =>
    simp only []
    split_ifs <;> simp [unmarshalled]

/-- The state an iteration leaves is the one the handler returned, when the
payload decodes, and the state it started in otherwise. -/
theorem consumeStep_state {T σ : Type} (handler : σ → T → AckType × σ)
    (unmarshaller : Body → Except String T) (s : σ) (message : Delivery) :
    (consumeStep handler unmarshaller s message).1
      = stateAfter handler unmarshaller s message := by
  simp only [consumeStep, stateAfter]
  cases hdec : unmarshaller message.Body with
  | error err => rfl
  | ok target =>
    simp only []
    split_ifs <;> rfl

/-- The events of one loop iteration form an iteration on its delivery. -/
theorem consumeStep_iteration {T σ : Type} (handler : σ → T → AckType × σ)
    (unmarshaller : Body → Except String T) (s : σ) (message : Delivery) :
    IterationOf handler unmarshaller s message
      (consumeStep handler unmarshaller s message).2 := by
  refine ⟨?_, unmarshalled_consumeStep handler unmarshaller s message, ?_, ?_, ?_⟩
  · simp only [consumeStep]
    cases hdec : unmarshaller message.Body with
    | error err => simp
    | ok target =>
      simp only []
      split_ifs <;> simp
  · simp only [consumeStep]
    cases hdec : unmarshaller message.Body with
    | error err => simp [brokerCalls]
    | ok target =>
      simp only []
      split_ifs <;> simp [brokerCalls]
  · simp only [consumeStep]
    cases hdec : unmarshaller message.Body with
    | error err => simp [brokerCalls]
    | ok target =>
      simp only []
      split_ifs <;> simp [brokerCalls, Call.acked]
  · cases hdec : unmarshaller message.Body with
    | error err => simp [consumeStep, hdec, handlerArgs]
    | ok target =>
      simp only [consumeStep, hdec]
      by_cases h0 : (handler s target).1 = Ack
      · refine ⟨[Event.unmarshal message.Body, Event.logPrintln "Running handler"],
          [Event.call (Call.ack message false), Event.logPrintln "Ack"], ?_, rfl, rfl, rfl, ?_⟩
        · simp [h0]
        · intro _
          exact ⟨Call.ack message false, rfl, rfl⟩
      · by_cases h1 : (handler s target).1 = NackRequeue
        · refine ⟨[Event.unmarshal message.Body, Event.logPrintln "Running handler"],
            [Event.call (Call.nack message false true), Event.logPrintln "Nack Requeue"],
            ?_, rfl, rfl, rfl, ?_⟩
          · simp [h1, Ack, NackRequeue]
          · intro _
            exact ⟨Call.nack message false true, rfl, rfl⟩
        · by_cases h2 : (handler s target).1 = NackDiscard
          · refine ⟨[Event.unmarshal message.Body, Event.logPrintln "Running handler"],
              [Event.call (Call.nack message false false), Event.logPrintln "Nack Discard"],
              ?_, rfl, rfl, rfl, ?_⟩
            · simp [h2, Ack, NackRequeue, NackDiscard]
            · intro _
              exact ⟨Call.nack message false false, rfl, rfl⟩
          · refine ⟨[Event.unmarshal message.Body, Event.logPrintln "Running handler"],
              [Event.print "invalid ack result from handler: <nil>\n"], ?_, rfl, rfl, rfl, ?_⟩
            · simp [h0, h1, h2]
            · intro h
              rcases h with h | h | h
              · exact absurd h h0
              · exact absurd h h1
              · exact absurd h h2

/-- C7. For every finite delivery stream the loop's events are its iterations on
the deliveries, one per delivery and in stream order, followed only by
the deferred `channel.Close()`.  Each iteration starts by decoding its own
delivery and decodes nothing else; when the payload decodes it invokes the
handler exactly once, on the decoded value and in the state the earlier
deliveries left, and the acknowledgment call the handler's result asks for is
made on that delivery after the invocation and inside the same iteration, hence
before the next delivery is decoded; when the payload does not decode the
handler is not invoked.  So the payloads decoded are the stream's payloads in
order, the values passed to the handler are the decoded values of the decodable
deliveries in arrival order, the handler state at the end is the one obtained
by running the handler once on each of these values in turn, and nothing but
the close follows the last iteration. -/
theorem consumeLoop_in_order {T σ : Type} (channel : Channel)
    (handler : σ → T → AckType × σ) (unmarshaller : Body → Except String T) (s : σ)
    (ds : List Delivery) :
    handlerArgs (consumeLoop channel handler unmarshaller s ds).2
      = ds.filterMap (fun d => (unmarshaller d.Body).toOption) ∧
    unmarshalled (consumeLoop channel handler unmarshaller s ds).2
      = ds.map (fun d => d.Body) ∧
    (consumeLoop channel handler unmarshaller s ds).1
      = (ds.filterMap (fun d => (unmarshaller d.Body).toOption)).foldl
          (fun st v => (handler st v).2) s ∧
    ∃ segs : List (List (Event T)),
      (consumeLoop channel handler unmarshaller s ds).2
        = segs.flatten ++ [Event.call (Call.channelClose channel.id)] ∧
      Iterations handler unmarshaller s ds segs := by
  induction ds generalizing s with
  | nil =>
    refine ⟨by simp [consumeLoop, handlerArgs], by simp [consumeLoop, unmarshalled],
      by simp [consumeLoop], [], ?_, ?_⟩
    · simp [consumeLoop]
    · exact True.intro
  | cons message rest ih =>
    obtain ⟨ihH, ihU, ihS, segs, ihT, ihF⟩ :=
      ih (consumeStep handler unmarshaller s message).1
    rw [consumeLoop_cons]
    refine ⟨?_, ?_, ?_, (consumeStep handler unmarshaller s message).2 :: segs, ?_, ?_⟩
    · simp only [handlerArgs_append, ihH, handlerArgs_consumeStep, List.filterMap_cons]
      cases (unmarshaller message.Body).toOption <;> simp
    · simp only [unmarshalled_append, ihU, unmarshalled_consumeStep]
      simp
    · show (consumeLoop channel handler unmarshaller
          (consumeStep handler unmarshaller s message).1 rest).1 = _
      rw [ihS, consumeStep_state]
      simp only [stateAfter, List.filterMap_cons]
      cases hdec : unmarshaller message.Body <;> simp [Except.toOption]
    · simp only [ihT]
      simp
    · rw [consumeStep_state] at ihF
      exact ⟨consumeStep_iteration handler unmarshaller s message, ihF⟩

end Pubsub

/-! ## The routing key of war recognitions -/

namespace Client

open Pubsub Sample

/-- C9 fails as stated: in the `duel` instance the move of player "alice"
reaches the client of player "bob" with outcome `MoveOutcomeMakeWar`, and the
recognition is published under "war.bob", not under the key built from the
mover's username, "war.alice". -/
theorem handlerMove_key_not_attacker :
    (duel.HandleMove "bob" "alice").1 = MoveOutcome.MoveOutcomeMakeWar ∧
    duel.Username (duel.MovePlayer "alice") = "alice" ∧
    publishedKeys (handlerMove duel routes warMarshal (okChannel []) "bob" "alice").calls
      = ["war.bob"] ∧
    "war.bob" ≠ routes.WarRecognitionsPrefix ++ "." ++ duel.Username (duel.MovePlayer "alice") := by
  refine ⟨by decide, rfl, by decide, by decide⟩

/-- C9, amended. When `HandleMove` answers `MoveOutcomeMakeWar`, every publish
call the move handler makes carries the routing key formed from the
war-recognitions prefix, a dot, and `gs.GetUsername()`, the username held by the
handling client's game state after `HandleMove`; and when the recognition
encodes, exactly one such call is made, to the topic exchange, with
`Attacker` the move's player. -/
theorem handlerMove_war_key (G : Gamelogic) (R : Routing)
    (jsonMarshal : RecognitionOfWar G.Player → Except String Body) (publishCh : Channel)
    (gs : G.GameState) (m : G.ArmyMove)
    (hwar : (G.HandleMove gs m).1 = MoveOutcome.MoveOutcomeMakeWar) :
    (∀ k ∈ publishedKeys (handlerMove G R jsonMarshal publishCh gs m).calls,
      k = R.WarRecognitionsPrefix ++ "." ++ G.GetUsername (G.HandleMove gs m).2) ∧
    (∀ dat,
      jsonMarshal { Attacker := G.MovePlayer m, Defender := G.GetPlayerSnap (G.HandleMove gs m).2 }
        = .ok dat →
      (handlerMove G R jsonMarshal publishCh gs m).calls
        = [Call.publishWithContext publishCh.id R.ExchangePerilTopic
            (R.WarRecognitionsPrefix ++ "." ++ G.GetUsername (G.HandleMove gs m).2) false false
            { ContentType := "application/json", Body := dat }]) := by
  have hcalls : (handlerMove G R jsonMarshal publishCh gs m).calls
      = (PublishJSON jsonMarshal publishCh R.ExchangePerilTopic
          (R.WarRecognitionsPrefix ++ "." ++ G.GetUsername (G.HandleMove gs m).2)
          { Attacker := G.MovePlayer m, Defender := G.GetPlayerSnap (G.HandleMove gs m).2 }).2 := by
    simp only [handlerMove, hwar]
    split <;> rfl
  rw [hcalls]
  cases hj : jsonMarshal
      { Attacker := G.MovePlayer m, Defender := G.GetPlayerSnap (G.HandleMove gs m).2 } with
  | error err => simp [PublishJSON, hj, publishedKeys]
  | ok dat0 =>
    have hp : (PublishJSON jsonMarshal publishCh R.ExchangePerilTopic
          (R.WarRecognitionsPrefix ++ "." ++ G.GetUsername (G.HandleMove gs m).2)
          { Attacker := G.MovePlayer m, Defender := G.GetPlayerSnap (G.HandleMove gs m).2 }).2
        = [Call.publishWithContext publishCh.id R.ExchangePerilTopic
            (R.WarRecognitionsPrefix ++ "." ++ G.GetUsername (G.HandleMove gs m).2) false false
            { ContentType := "application/json", Body := dat0 }] := by
      simp only [PublishJSON, hj]
      split <;> rfl
    rw [hp]
    refine ⟨?_, ?_⟩
    · intro k hk
      simpa [publishedKeys] using hk
    · intro dat hdat
      cases hdat
      rfl

/-- C9 amended, at a concrete input: the move of "alice" handled by "bob". -/
theorem handlerMove_war_key_witness :
    (duel.HandleMove "bob" "alice").1 = MoveOutcome.MoveOutcomeMakeWar ∧
    (handlerMove duel routes warMarshal (okChannel []) "bob" "alice").calls
      = [Call.publishWithContext 7 "peril_topic" "war.bob" false false
          { ContentType := "application/json", Body := [5, 3] }] :=
  ⟨by decide,
   (handlerMove_war_key duel routes warMarshal (okChannel []) "bob" "alice" (by decide)).2
     [5, 3] rfl⟩

end Client

/-! ## Evaluations at concrete inputs -/

namespace Sample

open Pubsub Client

/-- C4 at a concrete input: the declarations made for the two policies on a
connection whose channel opens. -/
theorem DeclareAndBind_policy_flags_witness :
    declaredFlags (DeclareAndBind (okConn []) "peril_topic" "war" "war.*"
        SimpleQueueTypeTransient).2 = [(false, true, true)] ∧
    declaredFlags (DeclareAndBind (okConn []) "peril_topic" "war" "war.*"
        SimpleQueueTypeDurable).2 = [(true, false, false)] :=
  (DeclareAndBind_policy_flags (okConn []) "peril_topic" "war" "war.*").2.2 (okChannel []) rfl

/-- C5 at a concrete input: a queue type that is neither named policy still
gets the dead-letter argument. -/
theorem DeclareAndBind_dead_letter_witness :
    declaredArgs (DeclareAndBind (okConn []) "peril_topic" "war" "war.*" 9).2
      = [[("x-dead-letter-exchange", "peril_dlx")]] :=
  (DeclareAndBind_dead_letter (okConn []) "peril_topic" "war" "war.*" 9).2 (okChannel []) rfl

/-- C6 at concrete inputs: an encodable value on a channel that refuses the
publish gives one call and an error; an unencodable value gives no call. -/
theorem Publish_error_iff_witness :
    ((PublishJSON byteEncode publishFailChannel "peril_direct" "pause" 1).2
        = [Call.publishWithContext 7 "peril_direct" "pause" false false
            { ContentType := "application/json", Body := [1] }] ∧
     ((PublishJSON byteEncode publishFailChannel "peril_direct" "pause" 1).1 = none ↔
        publishFailChannel.PublishWithContext "peril_direct" "pause" false false
          { ContentType := "application/json", Body := [1] } = none)) ∧
    ((PublishGob byteEncode publishFailChannel "peril_direct" "pause" 300).1.isSome = true ∧
     (PublishGob byteEncode publishFailChannel "peril_direct" "pause" 300).2 = []) :=
  ⟨(Publish_error_iff byteEncode byteEncode publishFailChannel "peril_direct" "pause" 1).1.2
      [1] rfl,
   (Publish_error_iff byteEncode byteEncode publishFailChannel "peril_direct" "pause" 300).2.1
      "unsupported value" rfl⟩

/-- C7 at a concrete input: of three deliveries the second does not decode.  The
handler sees the first and the third value, in that order, and has run twice
when the stream ends; the loop's events are the three iterations, each with its
own acknowledgment call after the handler and before the next decoding, then the
close. -/
theorem consumeLoop_in_order_witness :
    handlerArgs (consumeLoop (okChannel []) echoHandler byteDecode 0
        [delivery 1 [2], delivery 2 [1, 2], delivery 3 [0]]).2 = [2, 0] ∧
    (consumeLoop (okChannel []) echoHandler byteDecode 0
        [delivery 1 [2], delivery 2 [1, 2], delivery 3 [0]]).1 = 2 ∧
    (consumeLoop (okChannel []) echoHandler byteDecode 0
        [delivery 1 [2], delivery 2 [1, 2], delivery 3 [0]]).2
      = [Event.unmarshal [2], Event.logPrintln "Running handler", Event.handler 2,
         Event.call (Call.nack (delivery 1 [2]) false false), Event.logPrintln "Nack Discard",
         Event.unmarshal [1, 2], Event.print "error during message unmarshal: malformed\n",
         Event.unmarshal [0], Event.logPrintln "Running handler", Event.handler 0,
         Event.call (Call.ack (delivery 3 [0]) false), Event.logPrintln "Ack",
         Event.call (Call.channelClose 7)] :=
  ⟨(consumeLoop_in_order (okChannel []) echoHandler byteDecode 0
      [delivery 1 [2], delivery 2 [1, 2], delivery 3 [0]]).1.trans (by decide),
   (consumeLoop_in_order (okChannel []) echoHandler byteDecode 0
      [delivery 1 [2], delivery 2 [1, 2], delivery 3 [0]]).2.2.1.trans (by decide),
   by decide⟩

/-- C8 at a concrete input: when `Qos` is refused, `subscribe` reports an error,
starts no goroutine and stops after the `Qos` call. -/
theorem subscribe_flow_control_witness :
    (subscribe { Channel := .ok (qosFailChannel [delivery 1 [0]]) } "peril_topic" "war" "war.*"
        SimpleQueueTypeDurable echoHandler byteDecode 0).err.isSome = true ∧
    (subscribe { Channel := .ok (qosFailChannel [delivery 1 [0]]) } "peril_topic" "war" "war.*"
        SimpleQueueTypeDurable echoHandler byteDecode 0).goroutine = none ∧
    (subscribe { Channel := .ok (qosFailChannel [delivery 1 [0]]) } "peril_topic" "war" "war.*"
        SimpleQueueTypeDurable echoHandler byteDecode 0).calls
      = [Call.connChannel,
         Call.queueDeclare 7 "war" true false false false
           [("x-dead-letter-exchange", "peril_dlx")],
         Call.queueBind 7 "war" "war.*" "peril_topic" false none,
         Call.qos 7 10 0 true] :=
  ((subscribe_flow_control { Channel := .ok (qosFailChannel [delivery 1 [0]]) } "peril_topic"
      "war" "war.*" SimpleQueueTypeDurable echoHandler byteDecode 0).2
    (qosFailChannel [delivery 1 [0]]) { Name := "war", Messages := 0, Consumers := 0 } rfl).1
    "channel closed" rfl

end Sample
